import Mathlib

/-!
Shallow embedding of the attention-state classifier of
`src/components/StudentCamera.jsx` (the MediaPipe-driven version):
the mutable refs `statusRef`, `eyeClosedFrames`, `lookingAwayFrames`,
`attentiveFrames`, the constant `THRESHOLDS` object, and the functions
`analyzeAttention`, `updateStatus` and `onMediaPipeResults` (the latter
modelled as `ingest`, taking `none` when `extractAttentionFeatures`
returned `null`).
-/

namespace LiveFrontend

/-- The status strings the classifier uses (`'attentive'`, `'looking_away'`,
`'drowsy'`, `'no_face'`). -/
inductive Status
  | attentive
  | looking_away
  | drowsy
  | no_face
  deriving DecidableEq, Repr

/-- A JavaScript number as the classifier observes it: a finite value,
NaN, or an infinity.  Finite values are modelled as rationals. -/
inductive JsNum
  | fin (q : ℚ)
  | nan
  | posInf
  | negInf
  deriving DecidableEq, Repr

/-- JS `<` on numbers: every comparison involving NaN is false. -/
def jsLt : JsNum → JsNum → Bool
  | .fin a, .fin b => decide (a < b)
  | .nan, _ => false
  | _, .nan => false
  | .posInf, _ => false
  | .negInf, .negInf => false
  | .negInf, _ => true
  | .fin _, .posInf => true
  | .fin _, .negInf => false

/-- JS `>` on numbers. -/
def jsGt (a b : JsNum) : Bool := jsLt b a

/-- JS `Math.abs`. -/
def jsAbs : JsNum → JsNum
  | .fin q => .fin |q|
  | .nan => .nan
  | .posInf => .posInf
  | .negInf => .posInf

/-- One sample from `extractAttentionFeatures`: `eye_aspect_ratio`
(field `ear` here), `head_pose.yaw` and `head_pose.pitch`. -/
structure Features where
  ear : JsNum
  yaw : JsNum
  pitch : JsNum
  deriving DecidableEq, Repr

/-- The `THRESHOLDS` object, generalised to arbitrary values so that the
classifier can be analysed for every configuration; the source's constant
instance is `THRESHOLDS` below. -/
structure Thresholds where
  EYE_CLOSED : ℚ
  EYE_OPEN : ℚ
  DROWSY_FRAMES : ℕ
  HEAD_YAW_EXTREME : ℚ
  HEAD_YAW_MODERATE : ℚ
  HEAD_PITCH_DOWN : ℚ
  HEAD_PITCH_UP : ℚ
  LOOKING_AWAY_FRAMES : ℕ
  ATTENTIVE_FRAMES : ℕ
  deriving DecidableEq, Repr

/-- The constant `THRESHOLDS` object of `StudentCamera.jsx`. -/
def THRESHOLDS : Thresholds where
  EYE_CLOSED := 10/100
  EYE_OPEN := 18/100
  DROWSY_FRAMES := 12
  HEAD_YAW_EXTREME := 50
  HEAD_YAW_MODERATE := 30
  HEAD_PITCH_DOWN := 20
  HEAD_PITCH_UP := 20
  LOOKING_AWAY_FRAMES := 9
  ATTENTIVE_FRAMES := 6

/-- The three streak refs `eyeClosedFrames`, `lookingAwayFrames`,
`attentiveFrames`. -/
structure Counters where
  eyeClosedFrames : ℕ
  lookingAwayFrames : ℕ
  attentiveFrames : ℕ
  deriving DecidableEq, Repr

/-- The classifier's whole mutable state: `statusRef.current` plus the
three counters. -/
structure ClassifierState where
  status : Status
  counters : Counters
  deriving DecidableEq, Repr

/-- The `{ status, confidence }` object returned by `analyzeAttention`. -/
structure DetectionResult where
  status : Status
  confidence : ℚ
  deriving DecidableEq, Repr

/-- The payload passed to `onStatusChange` (the timestamp is omitted:
it does not influence the classifier). -/
structure StatusEvent where
  status : Status
  confidence : ℚ
  deriving DecidableEq, Repr

/-- The `isLookingAway` computation of `analyzeAttention`:
`absYaw > HEAD_YAW_EXTREME || (absYaw > HEAD_YAW_MODERATE && absPitch > HEAD_PITCH_DOWN)`. -/
def isLookingAwayCond (T : Thresholds) (f : Features) : Bool :=
  jsGt (jsAbs f.yaw) (.fin T.HEAD_YAW_EXTREME) ||
    (jsGt (jsAbs f.yaw) (.fin T.HEAD_YAW_MODERATE) &&
      jsGt (jsAbs f.pitch) (.fin T.HEAD_PITCH_DOWN))

/-- `analyzeAttention`: reads `statusRef.current` (argument `st`), mutates
the three counters, and returns a `DetectionResult`.  Faithful to the
source's branch structure and mutation order. -/
def analyzeAttention (T : Thresholds) (st : Status) (c : Counters)
    (f : Features) : DetectionResult × Counters :=
  -- PRIORITY 1: drowsiness
  if jsLt f.ear (.fin T.EYE_CLOSED) then
    let ec := c.eyeClosedFrames + 1
    if T.DROWSY_FRAMES ≤ ec then
      (⟨.drowsy, 95/100⟩,
        { eyeClosedFrames := ec, lookingAwayFrames := 0, attentiveFrames := 0 })
    else
      (⟨st, 70/100⟩, { c with eyeClosedFrames := ec })
  else
    let c1 := if jsGt f.ear (.fin T.EYE_OPEN) then { c with eyeClosedFrames := 0 } else c
    -- PRIORITY 2: looking away
    if isLookingAwayCond T f then
      let la := c1.lookingAwayFrames + 1
      if T.LOOKING_AWAY_FRAMES ≤ la then
        (⟨.looking_away, 90/100⟩,
          { eyeClosedFrames := 0, lookingAwayFrames := la, attentiveFrames := 0 })
      else
        (⟨st, 75/100⟩, { c1 with lookingAwayFrames := la, attentiveFrames := 0 })
    else
      let c2 := { c1 with lookingAwayFrames := 0 }
      -- PRIORITY 3: attentive
      if c2.eyeClosedFrames = 0 ∧ c2.lookingAwayFrames = 0 then
        let af := c2.attentiveFrames + 1
        if T.ATTENTIVE_FRAMES ≤ af then
          (⟨.attentive, 95/100⟩, { c2 with attentiveFrames := af })
        else
          (⟨st, 80/100⟩, { c2 with attentiveFrames := af })
      else
        (⟨st, 70/100⟩, c2)

/-- `updateStatus`: emits (`onStatusChange`) exactly when the new status
differs from `statusRef.current`, committing the new status and clearing
the counters of the other branches. -/
def updateStatus (s : ClassifierState) (newStatus : Status) (confidence : ℚ) :
    Option StatusEvent × ClassifierState :=
  if newStatus = s.status then
    (none, s)
  else
    let c := s.counters
    let c' : Counters :=
      match newStatus with
      | .attentive => { c with eyeClosedFrames := 0, lookingAwayFrames := 0 }
      | .drowsy => { c with lookingAwayFrames := 0, attentiveFrames := 0 }
      | .looking_away => { c with eyeClosedFrames := 0, attentiveFrames := 0 }
      | .no_face => c
    (some ⟨newStatus, confidence⟩, ⟨newStatus, c'⟩)

/-- One detection cycle (`onMediaPipeResults`): `none` models
`extractAttentionFeatures` returning `null` (no face), which goes straight
to `updateStatus('no_face', 0)`; otherwise `analyzeAttention` then
`updateStatus`. -/
def ingest (T : Thresholds) (s : ClassifierState) (input : Option Features) :
    Option StatusEvent × ClassifierState :=
  match input with
  | none => updateStatus s .no_face 0
  | some f =>
    let rc := analyzeAttention T s.status s.counters f
    updateStatus ⟨s.status, rc.2⟩ rc.1.status rc.1.confidence

/-- Feed a list of detection cycles, collecting each cycle's emission. -/
def ingestAll (T : Thresholds) (s : ClassifierState) :
    List (Option Features) → List (Option StatusEvent) × ClassifierState
  | [] => ([], s)
  | i :: rest =>
    let es := ingest T s i
    let tail := ingestAll T es.2 rest
    (es.1 :: tail.1, tail.2)

/-- The state at mount: `statusRef = useRef('attentive')` and all three
counter refs at 0. -/
def initState : ClassifierState := ⟨.attentive, ⟨0, 0, 0⟩⟩


/-! ### Helper lemmas -/

/-- `updateStatus` emits exactly when the candidate differs from the
committed status. -/
theorem updateStatus_fst (s : ClassifierState) (ns : Status) (conf : ℚ) :
    (updateStatus s ns conf).1 = if ns = s.status then none else some ⟨ns, conf⟩ := by
  unfold updateStatus
  split <;> rfl

/-- On an eye-closed sample (`ear < EYE_CLOSED`) one `ingest` call is
exactly: increment the streak, fire `DROWSY` when it reaches
`DROWSY_FRAMES`, otherwise keep everything else as is. -/
theorem ingest_closed_step (T : Thresholds) (st : Status) (c : Counters)
    (f : Features) (hq : jsLt f.ear (.fin T.EYE_CLOSED) = true) :
    ingest T ⟨st, c⟩ (some f) =
      if T.DROWSY_FRAMES ≤ c.eyeClosedFrames + 1 then
        if Status.drowsy = st then
          (none, ⟨st, ⟨c.eyeClosedFrames + 1, 0, 0⟩⟩)
        else
          (some ⟨.drowsy, 95/100⟩, ⟨.drowsy, ⟨c.eyeClosedFrames + 1, 0, 0⟩⟩)
      else
        (none, ⟨st, { c with eyeClosedFrames := c.eyeClosedFrames + 1 }⟩) := by
  unfold ingest analyzeAttention updateStatus
  by_cases h1 : T.DROWSY_FRAMES ≤ c.eyeClosedFrames + 1 <;>
    by_cases h2 : Status.drowsy = st <;>
      simp [hq, h1, h2]

/-- A `null` cycle is exactly: emit `no_face` unless already committed,
never touching the counters. -/
theorem ingest_none_eq (T : Thresholds) (s : ClassifierState) :
    ingest T s none =
      if Status.no_face = s.status then (none, s)
      else (some ⟨.no_face, 0⟩, ⟨.no_face, s.counters⟩) := rfl

/-- `analyzeAttention` either keeps the committed status or fires one of
the three candidate results with its firing confidence. -/
theorem analyzeAttention_result (T : Thresholds) (st : Status) (c : Counters)
    (f : Features) :
    (analyzeAttention T st c f).1.status = st ∨
    (analyzeAttention T st c f).1 = ⟨.drowsy, 95/100⟩ ∨
    (analyzeAttention T st c f).1 = ⟨.looking_away, 90/100⟩ ∨
    (analyzeAttention T st c f).1 = ⟨.attentive, 95/100⟩ := by
  by_cases h1 : jsLt f.ear (.fin T.EYE_CLOSED) = true
  · by_cases h2 : T.DROWSY_FRAMES ≤ c.eyeClosedFrames + 1 <;>
      simp [analyzeAttention, h1, h2]
  · by_cases h0 : jsGt f.ear (.fin T.EYE_OPEN) = true <;>
      by_cases h3 : isLookingAwayCond T f = true
    · by_cases h4 : T.LOOKING_AWAY_FRAMES ≤ c.lookingAwayFrames + 1 <;>
        simp [analyzeAttention, h1, h0, h3, h4]
    · by_cases h6 : T.ATTENTIVE_FRAMES ≤ c.attentiveFrames + 1 <;>
        simp [analyzeAttention, h1, h0, h3, h6]
    · by_cases h4 : T.LOOKING_AWAY_FRAMES ≤ c.lookingAwayFrames + 1 <;>
        simp [analyzeAttention, h1, h0, h3, h4]
    · by_cases h5 : c.eyeClosedFrames = 0
      · by_cases h6 : T.ATTENTIVE_FRAMES ≤ c.attentiveFrames + 1 <;>
          simp [analyzeAttention, h1, h0, h3, h5, h6]
      · simp [analyzeAttention, h1, h0, h3, h5]

/-- `ingestAll` distributes over list append. -/
theorem ingestAll_append (T : Thresholds) (s : ClassifierState)
    (l1 l2 : List (Option Features)) :
    ingestAll T s (l1 ++ l2) =
      ((ingestAll T s l1).1 ++ (ingestAll T (ingestAll T s l1).2 l2).1,
        (ingestAll T (ingestAll T s l1).2 l2).2) := by
  induction l1 generalizing s with
  | nil => simp [ingestAll]
  | cons i rest ih => simp [ingestAll, ih]

/-- Feeding a run of eye-closed samples that stays strictly inside the
debounce window just counts them up, emitting nothing. -/
theorem ingestAll_closed_run (T : Thresholds) (st : Status) (fs : List Features)
    (hq : ∀ f ∈ fs, jsLt f.ear (.fin T.EYE_CLOSED) = true) :
    ∀ k, k + fs.length < T.DROWSY_FRAMES →
      ingestAll T ⟨st, ⟨k, 0, 0⟩⟩ (fs.map some) =
        (List.replicate fs.length none, ⟨st, ⟨k + fs.length, 0, 0⟩⟩) := by
  induction fs with
  | nil => intro k _; simp [ingestAll]
  | cons f rest ih =>
    intro k hk
    simp only [List.length_cons] at hk
    have hf : jsLt f.ear (.fin T.EYE_CLOSED) = true := hq f (by simp)
    have hnot : ¬ T.DROWSY_FRAMES ≤ k + 1 := by omega
    have hstep : ingest T ⟨st, ⟨k, 0, 0⟩⟩ (some f) = (none, ⟨st, ⟨k + 1, 0, 0⟩⟩) := by
      rw [ingest_closed_step T st ⟨k, 0, 0⟩ f hf]
      simp [hnot]
    have ihr := ih (fun g hg => hq g (by simp [hg])) (k + 1) (by omega)
    have harith : k + 1 + rest.length = k + (rest.length + 1) := by omega
    simp only [List.map_cons, ingestAll, hstep, ihr, List.length_cons,
      List.replicate_succ, harith]


/-- Candidate status on an eye-closed sample: `DROWSY` (when the streak
fires) or the committed status (debounce window). -/
theorem analyzeAttention_closed_status (T : Thresholds) (st : Status)
    (c : Counters) (f : Features)
    (hq : jsLt f.ear (.fin T.EYE_CLOSED) = true) :
    (analyzeAttention T st c f).1.status = .drowsy ∨
    (analyzeAttention T st c f).1.status = st := by
  by_cases h2 : T.DROWSY_FRAMES ≤ c.eyeClosedFrames + 1 <;>
    simp [analyzeAttention, hq, h2]

/-- The sample used by the concrete witnesses: the spec scenario's
`eyeAspectRatio = 0.08` with the head facing forward. -/
def sampleClosed : Features := ⟨.fin (8/100), .fin 0, .fin 0⟩

/-! ### Claim theorems -/

/-- C1: from zero counters and a committed state other than `DROWSY`,
`drowsyFrameCount - 1` consecutive samples with `ear < EYE_CLOSED` emit
nothing, and one further such sample emits exactly one `DROWSY` event. -/
theorem C1_debounce_drowsy (T : Thresholds) (st : Status) (hst : st ≠ .drowsy)
    (hn : 1 ≤ T.DROWSY_FRAMES) (fs : List Features)
    (hlen : fs.length = T.DROWSY_FRAMES - 1)
    (hq : ∀ f ∈ fs, jsLt f.ear (.fin T.EYE_CLOSED) = true)
    (g : Features) (hg : jsLt g.ear (.fin T.EYE_CLOSED) = true) :
    (ingestAll T ⟨st, ⟨0, 0, 0⟩⟩ ((fs ++ [g]).map some)).1
      = List.replicate (T.DROWSY_FRAMES - 1) none ++ [some ⟨.drowsy, 95/100⟩] := by
  have hrun := ingestAll_closed_run T st fs hq 0 (by omega)
  simp only [Nat.zero_add] at hrun
  have hstep := ingest_closed_step T st ⟨fs.length, 0, 0⟩ g hg
  rw [if_pos (by simp; omega), if_neg (fun h => hst h.symm)] at hstep
  rw [List.map_append, ingestAll_append, hrun, ← hlen]
  simp [ingestAll, hstep]

/-- Witness for C1 at the source configuration, starting from the mount
state and feeding 11 + 1 samples with `ear = 0.08 < 0.10`. -/
theorem C1_debounce_drowsy_witness :
    (ingestAll THRESHOLDS ⟨.attentive, ⟨0, 0, 0⟩⟩
        ((List.replicate 11 sampleClosed ++ [sampleClosed]).map some)).1
      = List.replicate 11 none ++ [some ⟨.drowsy, 95/100⟩] := by
  have h := C1_debounce_drowsy THRESHOLDS .attentive (by decide)
      (by norm_num [THRESHOLDS]) (List.replicate 11 sampleClosed)
      (by simp [THRESHOLDS])
      (fun f hf => by
        rw [List.eq_of_mem_replicate hf]
        norm_num [jsLt, sampleClosed, THRESHOLDS])
      sampleClosed (by norm_num [jsLt, sampleClosed, THRESHOLDS])
  simpa [THRESHOLDS] using h

/-- C3: an event is returned only when the candidate differs from the
committed status, and once `DROWSY` is committed an eye-closed sample
returns `null`. -/
theorem C3_edge_triggered (T : Thresholds) (s : ClassifierState)
    (input : Option Features) :
    (∀ ev, (ingest T s input).1 = some ev → ev.status ≠ s.status) ∧
    (s.status = .drowsy → ∀ f, input = some f →
      jsLt f.ear (.fin T.EYE_CLOSED) = true → (ingest T s input).1 = none) := by
  constructor
  · intro ev hev
    cases input with
    | none =>
      rw [ingest_none_eq] at hev
      by_cases h : Status.no_face = s.status
      · rw [if_pos h] at hev
        simp at hev
      · rw [if_neg h] at hev
        simp at hev
        rw [← hev]
        exact h
    | some f =>
      have heq : (ingest T s (some f)).1
          = (updateStatus ⟨s.status, (analyzeAttention T s.status s.counters f).2⟩
              (analyzeAttention T s.status s.counters f).1.status
              (analyzeAttention T s.status s.counters f).1.confidence).1 := rfl
      rw [heq, updateStatus_fst] at hev
      by_cases h : (analyzeAttention T s.status s.counters f).1.status = s.status
      · rw [if_pos h] at hev
        simp at hev
      · rw [if_neg h] at hev
        simp at hev
        rw [← hev]
        exact h
  · intro hdr f hf hq
    subst hf
    have heq : (ingest T s (some f)).1
        = (updateStatus ⟨s.status, (analyzeAttention T s.status s.counters f).2⟩
            (analyzeAttention T s.status s.counters f).1.status
            (analyzeAttention T s.status s.counters f).1.confidence).1 := rfl
    rw [heq, updateStatus_fst]
    have hstat : (analyzeAttention T s.status s.counters f).1.status = s.status := by
      rcases analyzeAttention_closed_status T s.status s.counters f hq with h | h
      · rw [h, hdr]
      · exact h
    simp [hstat]

/-- Witness for C3: with `DROWSY` committed and the streak at 12, a
further eye-closed sample returns `null`. -/
theorem C3_edge_triggered_witness :
    (ingest THRESHOLDS ⟨.drowsy, ⟨12, 0, 0⟩⟩ (some sampleClosed)).1 = none :=
  (C3_edge_triggered THRESHOLDS ⟨.drowsy, ⟨12, 0, 0⟩⟩ (some sampleClosed)).2 rfl
    sampleClosed rfl (by norm_num [jsLt, sampleClosed, THRESHOLDS])

/-- C4: a single `null` input from any state immediately emits `NO_FACE`
when the committed state is not already `NO_FACE`, and returns `null`
when it is. -/
theorem C4_no_face_immediate (T : Thresholds) (s : ClassifierState) :
    (s.status ≠ .no_face →
      ingest T s none = (some ⟨.no_face, 0⟩, ⟨.no_face, s.counters⟩)) ∧
    (s.status = .no_face → ingest T s none = (none, s)) := by
  constructor
  · intro h
    rw [ingest_none_eq, if_neg (fun hc => h hc.symm)]
  · intro h
    rw [ingest_none_eq, if_pos h.symm]

/-- Witness for C4: `null` from `ATTENTIVE` with nonzero streaks emits
`NO_FACE` at once; `null` from `NO_FACE` emits nothing. -/
theorem C4_no_face_immediate_witness :
    ingest THRESHOLDS ⟨.attentive, ⟨3, 4, 5⟩⟩ none
        = (some ⟨.no_face, 0⟩, ⟨.no_face, ⟨3, 4, 5⟩⟩) ∧
    ingest THRESHOLDS ⟨.no_face, ⟨3, 4, 5⟩⟩ none = (none, ⟨.no_face, ⟨3, 4, 5⟩⟩) :=
  ⟨(C4_no_face_immediate THRESHOLDS ⟨.attentive, ⟨3, 4, 5⟩⟩).1 (by decide),
   (C4_no_face_immediate THRESHOLDS ⟨.no_face, ⟨3, 4, 5⟩⟩).2 rfl⟩

/-- C10: committing `NO_FACE` on a `null` input resets none of the three
counters, and an eye-closed sample right after the face reappears resumes
the drowsy streak from the retained value. -/
theorem C10_no_face_keeps_counters (T : Thresholds) (s : ClassifierState) :
    (ingest T s none).2.counters = s.counters ∧
    ∀ f, jsLt f.ear (.fin T.EYE_CLOSED) = true →
      (ingest T (ingest T s none).2 (some f)).2.counters.eyeClosedFrames
        = s.counters.eyeClosedFrames + 1 := by
  have hkey : (ingest T s none).2 = ⟨.no_face, s.counters⟩ := by
    rw [ingest_none_eq]
    split
    · next h =>
      obtain ⟨st, c⟩ := s
      cases h
      rfl
    · rfl
  refine ⟨by rw [hkey], ?_⟩
  intro f hq
  rw [hkey, ingest_closed_step T .no_face s.counters f hq]
  by_cases hfire : T.DROWSY_FRAMES ≤ s.counters.eyeClosedFrames + 1
  · rw [if_pos hfire, if_neg (by decide)]
  · rw [if_neg hfire]

/-- Witness for C10: `null` from `ATTENTIVE` with streaks `(7, 2, 1)`
keeps them, and a following eye-closed sample moves the drowsy streak
from 7 to 8. -/
theorem C10_no_face_keeps_counters_witness :
    (ingest THRESHOLDS ⟨.attentive, ⟨7, 2, 1⟩⟩ none).2.counters = ⟨7, 2, 1⟩ ∧
    (ingest THRESHOLDS (ingest THRESHOLDS ⟨.attentive, ⟨7, 2, 1⟩⟩ none).2
        (some sampleClosed)).2.counters.eyeClosedFrames = 8 :=
  ⟨(C10_no_face_keeps_counters THRESHOLDS ⟨.attentive, ⟨7, 2, 1⟩⟩).1,
   (C10_no_face_keeps_counters THRESHOLDS ⟨.attentive, ⟨7, 2, 1⟩⟩).2 sampleClosed
     (by norm_num [jsLt, sampleClosed, THRESHOLDS])⟩


/-- `ingest_closed_step` specialised to counters `⟨k, 0, 0⟩`. -/
theorem ingest_closed_step0 (T : Thresholds) (st : Status) (k : ℕ)
    (f : Features) (hq : jsLt f.ear (.fin T.EYE_CLOSED) = true) :
    ingest T ⟨st, ⟨k, 0, 0⟩⟩ (some f) =
      if T.DROWSY_FRAMES ≤ k + 1 then
        if Status.drowsy = st then (none, ⟨st, ⟨k + 1, 0, 0⟩⟩)
        else (some ⟨.drowsy, 95/100⟩, ⟨.drowsy, ⟨k + 1, 0, 0⟩⟩)
      else (none, ⟨st, ⟨k + 1, 0, 0⟩⟩) := by
  simpa using ingest_closed_step T st ⟨k, 0, 0⟩ f hq

/-- The committed status after `k` consecutive eye-closed samples,
starting with a zero streak from committed status `st`. -/
def statAfter (T : Thresholds) (st : Status) (k : ℕ) : Status :=
  if 1 ≤ k ∧ T.DROWSY_FRAMES ≤ k then .drowsy else st

/-- On a run of eye-closed samples the classifier counts the streak up,
commits (at most once) to `DROWSY`, and emits nothing but possibly one
`DROWSY` event. -/
theorem ingestAll_closed_phase (T : Thresholds) (st : Status)
    (fs : List Features)
    (hq : ∀ f ∈ fs, jsLt f.ear (.fin T.EYE_CLOSED) = true) :
    ∀ k,
      (ingestAll T ⟨statAfter T st k, ⟨k, 0, 0⟩⟩ (fs.map some)).2
          = ⟨statAfter T st (k + fs.length), ⟨k + fs.length, 0, 0⟩⟩ ∧
      ∀ e ∈ (ingestAll T ⟨statAfter T st k, ⟨k, 0, 0⟩⟩ (fs.map some)).1,
        e = none ∨ e = some ⟨.drowsy, 95/100⟩ := by
  induction fs with
  | nil => intro k; simp [ingestAll]
  | cons f rest ih =>
    intro k
    have hf : jsLt f.ear (.fin T.EYE_CLOSED) = true := hq f (by simp)
    have hstep := ingest_closed_step0 T (statAfter T st k) k f hf
    have hfs : (ingest T ⟨statAfter T st k, ⟨k, 0, 0⟩⟩ (some f)).1 = none ∨
        (ingest T ⟨statAfter T st k, ⟨k, 0, 0⟩⟩ (some f)).1
          = some ⟨.drowsy, 95/100⟩ := by
      rw [hstep]
      by_cases hfire : T.DROWSY_FRAMES ≤ k + 1
      · rw [if_pos hfire]
        by_cases hdr : Status.drowsy = statAfter T st k
        · rw [if_pos hdr]
          exact Or.inl rfl
        · rw [if_neg hdr]
          exact Or.inr rfl
      · rw [if_neg hfire]
        exact Or.inl rfl
    have hss : (ingest T ⟨statAfter T st k, ⟨k, 0, 0⟩⟩ (some f)).2
        = ⟨statAfter T st (k + 1), ⟨k + 1, 0, 0⟩⟩ := by
      rw [hstep]
      by_cases hfire : T.DROWSY_FRAMES ≤ k + 1
      · have hs1 : statAfter T st (k + 1) = .drowsy := by
          simp [statAfter, hfire, Nat.succ_le_succ (Nat.zero_le k)]
        rw [if_pos hfire]
        by_cases hdr : Status.drowsy = statAfter T st k
        · rw [if_pos hdr, hs1, ← hdr]
        · rw [if_neg hdr, hs1]
      · have h2 : ¬(1 ≤ k ∧ T.DROWSY_FRAMES ≤ k) := fun h =>
          hfire (Nat.le_succ_of_le h.2)
        have hs2 : statAfter T st (k + 1) = statAfter T st k := by
          simp [statAfter, hfire, h2]
        rw [if_neg hfire, hs2]
    obtain ⟨ihr2, ihre⟩ := ih (fun g hg => hq g (by simp [hg])) (k + 1)
    have harith : k + 1 + rest.length = k + (rest.length + 1) := by omega
    refine ⟨?_, ?_⟩
    · simp only [List.map_cons, ingestAll, hss, ihr2, List.length_cons, harith]
    · intro e hee
      simp only [List.map_cons, ingestAll, List.mem_cons] at hee
      rcases hee with hee | hee
      · rw [hee]
        exact hfs
      · rw [hss] at hee
        exact ihre e hee

/-- C2: on a sequence of samples each satisfying both the eye-closed and
the looking-away condition, sustained for at least `DROWSY_FRAMES`
samples, the committed state resolves to `DROWSY` and no `LOOKING_AWAY`
event is ever emitted. -/
theorem C2_drowsy_priority (T : Thresholds) (st : Status) (fs : List Features)
    (hq : ∀ f ∈ fs, jsLt f.ear (.fin T.EYE_CLOSED) = true ∧
      isLookingAwayCond T f = true)
    (h1 : 1 ≤ fs.length) (hn : T.DROWSY_FRAMES ≤ fs.length) :
    (ingestAll T ⟨st, ⟨0, 0, 0⟩⟩ (fs.map some)).2.status = .drowsy ∧
    ∀ e ∈ (ingestAll T ⟨st, ⟨0, 0, 0⟩⟩ (fs.map some)).1, ∀ ev, e = some ev →
      ev.status ≠ .looking_away := by
  have hst0 : statAfter T st 0 = st := by simp [statAfter]
  obtain ⟨h2, he⟩ := ingestAll_closed_phase T st fs (fun f hf => (hq f hf).1) 0
  rw [hst0] at h2 he
  constructor
  · rw [h2]
    simp [statAfter, h1, hn]
  · intro e hee ev hev
    rcases he e hee with h | h
    · rw [h] at hev
      cases hev
    · rw [h] at hev
      cases Option.some.inj hev
      simp


/-- A sample satisfying the eye-closed and the looking-away condition at
once: `ear = 0.08`, `yaw = 60`. -/
def sampleBoth : Features := ⟨.fin (8/100), .fin 60, .fin 0⟩

/-- Witness for C2: 12 samples with closed eyes and the head turned 60°
resolve to `DROWSY` with no `LOOKING_AWAY` emission. -/
theorem C2_drowsy_priority_witness :
    (ingestAll THRESHOLDS ⟨.attentive, ⟨0, 0, 0⟩⟩
        ((List.replicate 12 sampleBoth).map some)).2.status = .drowsy ∧
    ∀ e ∈ (ingestAll THRESHOLDS ⟨.attentive, ⟨0, 0, 0⟩⟩
        ((List.replicate 12 sampleBoth).map some)).1, ∀ ev, e = some ev →
      ev.status ≠ .looking_away :=
  C2_drowsy_priority THRESHOLDS .attentive (List.replicate 12 sampleBoth)
    (fun f hf => by
      rw [List.eq_of_mem_replicate hf]
      constructor <;>
        norm_num [jsLt, jsGt, jsAbs, isLookingAwayCond, sampleBoth, THRESHOLDS])
    (by simp) (by simp [THRESHOLDS])

/-- Counterexample to C5 as stated: `ear = 0.15` lies strictly between
the thresholds, yet with the head turned (`yaw = 60`) and the
looking-away streak at 8 the sample fires `LOOKING_AWAY`, which resets
`eyeClosedFrames` from 5 to 0. -/
theorem C5_dead_zone_cex :
    (jsLt (.fin THRESHOLDS.EYE_CLOSED) (JsNum.fin (15/100)) = true ∧
      jsLt (JsNum.fin (15/100)) (.fin THRESHOLDS.EYE_OPEN) = true) ∧
    (ingest THRESHOLDS ⟨.attentive, ⟨5, 8, 0⟩⟩
        (some ⟨.fin (15/100), .fin 60, .fin 0⟩)).2.counters.eyeClosedFrames ≠ 5 := by
  refine ⟨⟨?_, ?_⟩, ?_⟩ <;>
    norm_num [ingest, analyzeAttention, updateStatus, isLookingAwayCond,
      jsLt, jsGt, jsAbs, THRESHOLDS] <;>
    simp

/-- C5 (amended): a sample with `ear` strictly inside the hysteresis band
leaves `eyeClosedFrames` unchanged, unless that same call fires the
looking-away rule (looking-away condition holds and the incremented
looking-away streak reaches `LOOKING_AWAY_FRAMES`), which resets it. -/
theorem C5_dead_zone (T : Thresholds) (st : Status) (c : Counters)
    (f : Features)
    (hlo : jsLt (.fin T.EYE_CLOSED) f.ear = true)
    (hhi : jsLt f.ear (.fin T.EYE_OPEN) = true)
    (hnofire : ¬(isLookingAwayCond T f = true ∧
      T.LOOKING_AWAY_FRAMES ≤ c.lookingAwayFrames + 1)) :
    (ingest T ⟨st, c⟩ (some f)).2.counters.eyeClosedFrames
      = c.eyeClosedFrames := by
  obtain ⟨q, hq, hq1, hq2⟩ :
      ∃ q, f.ear = .fin q ∧ T.EYE_CLOSED < q ∧ q < T.EYE_OPEN := by
    cases hear : f.ear with
    | fin q =>
      rw [hear] at hlo hhi
      simp [jsLt] at hlo hhi
      exact ⟨q, rfl, hlo, hhi⟩
    | nan => rw [hear] at hlo; simp [jsLt] at hlo
    | posInf => rw [hear] at hhi; simp [jsLt] at hhi
    | negInf => rw [hear] at hlo; simp [jsLt] at hlo
  have hnc : jsLt f.ear (.fin T.EYE_CLOSED) = false := by
    rw [hq]
    simp [jsLt]
    linarith
  have hno : jsGt f.ear (.fin T.EYE_OPEN) = false := by
    rw [hq]
    simp [jsGt, jsLt]
    linarith
  unfold ingest analyzeAttention
  by_cases hla : isLookingAwayCond T f = true
  · have hnf : ¬ T.LOOKING_AWAY_FRAMES ≤ c.lookingAwayFrames + 1 :=
      fun hle => hnofire ⟨hla, hle⟩
    simp [hnc, hno, hla, hnf, updateStatus]
  · simp only [hnc, hno, hla, Bool.false_eq_true, if_false]
    by_cases hec : c.eyeClosedFrames = 0
    · by_cases haf : T.ATTENTIVE_FRAMES ≤ c.attentiveFrames + 1
      · by_cases hsa : Status.attentive = st <;>
          simp [hec, haf, hsa, updateStatus]
      · simp [hec, haf, updateStatus]
    · simp [hec, updateStatus]

/-- Witness for C5 (amended): a dead-zone sample with the head forward
leaves a drowsy streak of 5 untouched. -/
theorem C5_dead_zone_witness :
    (ingest THRESHOLDS ⟨.attentive, ⟨5, 3, 0⟩⟩
        (some ⟨.fin (15/100), .fin 0, .fin 0⟩)).2.counters.eyeClosedFrames
      = 5 :=
  C5_dead_zone THRESHOLDS .attentive ⟨5, 3, 0⟩ ⟨.fin (15/100), .fin 0, .fin 0⟩
    (by norm_num [jsLt, THRESHOLDS]) (by norm_num [jsLt, THRESHOLDS])
    (fun h => absurd h.1
      (by norm_num [isLookingAwayCond, jsGt, jsLt, jsAbs, THRESHOLDS]))

/-- C6: the code has no finiteness guard.  A sample with `yaw = NaN`
(eyes clearly open) is not a no-op: `Math.abs(NaN) > θ` is false, so the
looking-away branch resets `lookingAwayFrames` from 3 to 0 and the
attentive branch then increments `attentiveFrames` — contradicting the
spec's required NaN rejection. -/
theorem C6_nan_not_noop :
    ingest THRESHOLDS ⟨.attentive, ⟨0, 3, 0⟩⟩ (some ⟨.fin (1/4), .nan, .fin 0⟩)
        = (none, ⟨.attentive, ⟨0, 0, 1⟩⟩) ∧
    (⟨0, 0, 1⟩ : Counters) ≠ ⟨0, 3, 0⟩ := by
  constructor
  · norm_num [ingest, analyzeAttention, updateStatus, isLookingAwayCond,
      jsLt, jsGt, jsAbs, THRESHOLDS]
  · simp

/-- Counterexample to C7 as stated: an eye-closed sample inside the
debounce window (streak 0 → 1, below `DROWSY_FRAMES = 12`) leaves
`lookingAwayFrames` at 5 instead of resetting it to 0. -/
theorem C7_closed_resets_cex :
    jsLt (JsNum.fin (8/100)) (.fin THRESHOLDS.EYE_CLOSED) = true ∧
    (ingest THRESHOLDS ⟨.attentive, ⟨0, 5, 0⟩⟩
        (some ⟨.fin (8/100), .fin 0, .fin 0⟩)).2.counters.lookingAwayFrames
      ≠ 0 := by
  constructor <;>
    norm_num [ingest, analyzeAttention, updateStatus, isLookingAwayCond,
      jsLt, jsGt, jsAbs, THRESHOLDS]

/-- C7 (amended): an eye-closed sample always increments
`eyeClosedFrames`; it resets `lookingAwayFrames` and `attentiveFrames`
to 0 exactly on the call where the incremented streak reaches
`DROWSY_FRAMES`, and leaves both unchanged on the earlier calls. -/
theorem C7_closed_sample_counters (T : Thresholds) (st : Status)
    (c : Counters) (f : Features)
    (hq : jsLt f.ear (.fin T.EYE_CLOSED) = true) :
    (ingest T ⟨st, c⟩ (some f)).2.counters.eyeClosedFrames
        = c.eyeClosedFrames + 1 ∧
    (T.DROWSY_FRAMES ≤ c.eyeClosedFrames + 1 →
      (ingest T ⟨st, c⟩ (some f)).2.counters.lookingAwayFrames = 0 ∧
      (ingest T ⟨st, c⟩ (some f)).2.counters.attentiveFrames = 0) ∧
    (¬ T.DROWSY_FRAMES ≤ c.eyeClosedFrames + 1 →
      (ingest T ⟨st, c⟩ (some f)).2.counters.lookingAwayFrames
          = c.lookingAwayFrames ∧
      (ingest T ⟨st, c⟩ (some f)).2.counters.attentiveFrames
          = c.attentiveFrames) := by
  rw [ingest_closed_step T st c f hq]
  by_cases hfire : T.DROWSY_FRAMES ≤ c.eyeClosedFrames + 1
  · rw [if_pos hfire]
    by_cases hdr : Status.drowsy = st
    · rw [if_pos hdr]
      exact ⟨rfl, fun _ => ⟨rfl, rfl⟩, fun h => absurd hfire h⟩
    · rw [if_neg hdr]
      exact ⟨rfl, fun _ => ⟨rfl, rfl⟩, fun h => absurd hfire h⟩
  · rw [if_neg hfire]
    exact ⟨rfl, fun h => absurd h hfire, fun _ => ⟨rfl, rfl⟩⟩

/-- Witness for C7 (amended): inside the debounce window the streak goes
0 → 1 and the other two counters keep their values 5 and 3. -/
theorem C7_closed_sample_counters_witness :
    (ingest THRESHOLDS ⟨.attentive, ⟨0, 5, 3⟩⟩
        (some sampleClosed)).2.counters.eyeClosedFrames = 1 ∧
    (ingest THRESHOLDS ⟨.attentive, ⟨0, 5, 3⟩⟩
        (some sampleClosed)).2.counters.lookingAwayFrames = 5 ∧
    (ingest THRESHOLDS ⟨.attentive, ⟨0, 5, 3⟩⟩
        (some sampleClosed)).2.counters.attentiveFrames = 3 := by
  have h := C7_closed_sample_counters THRESHOLDS .attentive ⟨0, 5, 3⟩
    sampleClosed (by norm_num [jsLt, sampleClosed, THRESHOLDS])
  exact ⟨h.1, h.2.2 (by norm_num [THRESHOLDS])⟩

/-- The confidence constant the code attaches to each emitted status. -/
def confidenceFor : Status → ℚ
  | .drowsy => 95/100
  | .looking_away => 90/100
  | .attentive => 95/100
  | .no_face => 0

/-- Counterexample to C8 as stated: the `no_face` emission carries
confidence 0, which is neither in `(0, 1]` nor `0.8`. -/
theorem C8_no_face_confidence_cex :
    (ingest THRESHOLDS initState none).1 = some ⟨.no_face, 0⟩ ∧
    ¬(0 < (0 : ℚ)) ∧ (0 : ℚ) ≠ 8/10 := by
  refine ⟨rfl, by norm_num, by norm_num⟩

/-- C8 (amended): every emitted event carries the fixed per-state
constant — 0.95 for `DROWSY`, 0.90 for `LOOKING_AWAY`, 0.95 for
`ATTENTIVE` and 0 for `NO_FACE`; the non-`NO_FACE` constants lie in
`(0, 1]`. -/
theorem C8_event_confidence (T : Thresholds) (s : ClassifierState)
    (input : Option Features) (ev : StatusEvent)
    (h : (ingest T s input).1 = some ev) :
    ev.confidence = confidenceFor ev.status ∧
    (ev.status ≠ .no_face → 0 < ev.confidence ∧ ev.confidence ≤ 1) := by
  cases input with
  | none =>
    rw [ingest_none_eq] at h
    by_cases hs : Status.no_face = s.status
    · rw [if_pos hs] at h
      simp at h
    · rw [if_neg hs] at h
      simp at h
      cases h
      exact ⟨rfl, fun hne => absurd rfl hne⟩
  | some f =>
    have heq : (ingest T s (some f)).1
        = (updateStatus ⟨s.status, (analyzeAttention T s.status s.counters f).2⟩
            (analyzeAttention T s.status s.counters f).1.status
            (analyzeAttention T s.status s.counters f).1.confidence).1 := rfl
    rw [heq, updateStatus_fst] at h
    by_cases hs : (analyzeAttention T s.status s.counters f).1.status = s.status
    · rw [if_pos hs] at h
      simp at h
    · rw [if_neg hs] at h
      simp at h
      rcases analyzeAttention_result T s.status s.counters f with hr | hr | hr | hr
      · exact absurd hr hs
      all_goals
        simp only [hr] at h
      all_goals
        cases h
      all_goals
        refine ⟨rfl, fun _ => ?_⟩
      all_goals
        norm_num

/-- Witness for C8 (amended), at the `DROWSY` emission of the debounce
scenario. -/
theorem C8_event_confidence_witness :
    (StatusEvent.mk .drowsy (95/100)).confidence
        = confidenceFor (StatusEvent.mk .drowsy (95/100)).status ∧
    ((StatusEvent.mk .drowsy (95/100)).status ≠ .no_face →
      0 < (StatusEvent.mk .drowsy (95/100)).confidence ∧
        (StatusEvent.mk .drowsy (95/100)).confidence ≤ 1) :=
  C8_event_confidence THRESHOLDS ⟨.attentive, ⟨11, 0, 0⟩⟩ (some sampleClosed)
    ⟨.drowsy, 95/100⟩
    (by norm_num [ingest, analyzeAttention, updateStatus, isLookingAwayCond,
      jsLt, jsGt, jsAbs, sampleClosed, THRESHOLDS] <;> simp)

/-- Counterexample to C9 as stated: the committed state at mount is the
ordinary state `'attentive'`, not a distinct `UNSET` value outside the
four states (and the component provides no `reset()`). -/
theorem C9_initial_state_cex : initState.status = Status.attentive := rfl

/-- C9 (amended): at construction the committed state is `ATTENTIVE`
(one of the four ordinary states — there is no distinct `UNSET` value and
no reset operation) and all three streak counters are zero. -/
theorem C9_initial_state : initState = ⟨.attentive, ⟨0, 0, 0⟩⟩ := rfl

end LiveFrontend
